import Mathlib

/-!
Shallow embedding of the lifecycle core of the tg-bot-template repository:
the migration manager (`core/migration_manager.py`), the store
(`core/database.py`), the orchestrator (`core/bot.py`) and the support
channel (`src/support/bot.py`).  Blocking-engine outcomes (whether the
alembic upgrade call succeeds, whether a network send succeeds, which
teardown steps fail) are environment parameters of the embedded functions.
-/

namespace TgBot

/-- Result of `MigrationManager.ensure_database_ready`: the boolean the
function returns, together with whether `apply_migrations` was invoked. -/
structure EnsureResult where
  ready : Bool
  applied : Bool
deriving DecidableEq

/-- `MigrationManager.has_pending_migrations` (migration_manager.py lines
84-97): `head` is read from the on-disk script graph, `current` from the
database bookkeeping row; either read surfaces failure as `none`. -/
def has_pending_migrations (current head : Option String) : Bool :=
  match head with
  | none => false
  | some h =>
    match current with
    | none => true
    | some c => c != h

/-- `MigrationManager.ensure_database_ready` (migration_manager.py lines
194-231).  `applyOk` is the environment outcome of `apply_migrations`
(true when the blocking `command.upgrade` completes without error; on
error `apply_migrations` catches, logs and returns false). -/
def ensure_database_ready (current head : Option String)
    (auto_migrate applyOk : Bool) : EnsureResult :=
  match head with
  | none => ⟨true, false⟩
  | some h =>
    match current with
    | none =>
      if auto_migrate then ⟨applyOk, true⟩
      else ⟨false, false⟩
    | some c =>
      if c = h then ⟨true, false⟩
      else if auto_migrate then ⟨applyOk, true⟩
      else ⟨false, false⟩

/-- The policy table of spec section 4.1, written from the spec text: head
null means no migration and ready; null current with non-null head applies
under auto-migrate, else not ready; current equal to head is ready with no
migration; differing non-null revisions apply under auto-migrate, else not
ready.  Defined for comparison with `ensure_database_ready`. -/
def spec_policy_ensure_ready (current head : Option String)
    (auto_migrate applyOk : Bool) : EnsureResult :=
  if head = none then ⟨true, false⟩
  else if current = none then
    (if auto_migrate then ⟨applyOk, true⟩ else ⟨false, false⟩)
  else if current = head then ⟨true, false⟩
  else if auto_migrate then ⟨applyOk, true⟩ else ⟨false, false⟩

/-- `DatabaseManager.setup` (database.py lines 41-61), observed as
(raised error, pool created).  When `auto_migrate` is set it first
delegates to `ensure_database_ready(auto_migrate=True)` and raises
`RuntimeError("Database migration failed")` when that returns false; the
connection pool is only created after a successful migration check.
`poolOk` is the environment outcome of `asyncpg.create_pool`. -/
def database_setup (auto_migrate : Bool) (current head : Option String)
    (applyOk poolOk : Bool) : Option String × Bool :=
  if auto_migrate then
    if (ensure_database_ready current head true applyOk).ready then
      (if poolOk then (none, true) else (some "pool creation failed", false))
    else (some "Database migration failed", false)
  else (if poolOk then (none, true) else (some "pool creation failed", false))

/-- Embedded Python runtime values, as far as the migration-status record
needs them: strings, None, booleans, lists, and coroutine objects (the
value produced by calling an `async def` function without awaiting it). -/
inductive PyVal where
  | pStr : String → PyVal
  | pNone : PyVal
  | pBool : Bool → PyVal
  | pList : List PyVal → PyVal
  | pCoroutine : String → PyVal

/-- True exactly on an unevaluated coroutine object. -/
def PyVal.isCoroutine : PyVal → Bool
  | .pCoroutine _ => true
  | _ => false

/-- An optional revision id as a Python value. -/
def optToPy : Option String → PyVal
  | none => .pNone
  | some s => .pStr s

/-- Python calling convention for invoking an `async def` method without
`await`: the call performs no work and returns a coroutine object. -/
def callAsyncUnawaited (qualifiedName : String) : PyVal :=
  .pCoroutine qualifiedName

/-- The record returned by `DatabaseManager.get_migration_status`. -/
structure MigrationStatus where
  current_revision : PyVal
  head_revision : PyVal
  has_pending_migrations : PyVal
  migration_history : PyVal

/-- `DatabaseManager.get_migration_status` (database.py lines 97-112): a
synchronous method that calls `get_current_revision`,
`has_pending_migrations` and `get_migration_history` — all `async def`
after the async refactor — without `await`, so those three fields receive
coroutine objects; only `get_head_revision` is synchronous and yields the
actual head. -/
def get_migration_status (head : Option String) : MigrationStatus :=
  { current_revision := callAsyncUnawaited "MigrationManager.get_current_revision"
    head_revision := optToPy head
    has_pending_migrations := callAsyncUnawaited "MigrationManager.has_pending_migrations"
    migration_history := callAsyncUnawaited "MigrationManager.get_migration_history" }

/-- The migration-status record as the spec describes it: each field holds
the computed value (revision ids, the pending boolean, the history list). -/
def spec_migration_status (current head : Option String) (pending : Bool)
    (history : List PyVal) : MigrationStatus :=
  { current_revision := optToPy current
    head_revision := optToPy head
    has_pending_migrations := .pBool pending
    migration_history := .pList history }

/-- Outcome of `SupportBot.send_notification`: returned boolean, number of
send attempts made, and the exception escaping the call (always none). -/
structure SendOutcome where
  ret : Bool
  attempts : Nat
  raised : Option String
deriving DecidableEq

/-- `SupportBot.send_notification` (support/bot.py lines 169-187): when the
internal application reference is null it returns false without attempting
a send; otherwise it attempts one send, returns true on success, and on
failure catches the exception, logs it and returns false.  `sendOk` is the
environment outcome of `bot.send_message`. -/
def send_notification (app : Option Unit) (sendOk : Bool) : SendOutcome :=
  match app with
  | none => ⟨false, 0, none⟩
  | some _ => if sendOk then ⟨true, 1, none⟩ else ⟨false, 1, none⟩

/-- Observable runtime state of the python-telegram-bot `Application`
held in `TelegramBot.app`: the `bot_data['is_shutting_down']` guard flag,
whether the updater is polling, whether the application's background tasks
run, and whether its resource scope is in effect. -/
structure AppState where
  is_shutting_down : Bool
  updaterRunning : Bool
  running : Bool
  inited : Bool
deriving DecidableEq

/-- Observable state of the support bot, as read by `is_running()`. -/
structure SupportState where
  running : Bool
deriving DecidableEq

/-- The fields of `TelegramBot` that `run` and `shutdown_gracefully`
consult: the optional application, whether the `DatabaseManager` was
constructed, the optional support bot, whether a maintainer chat id is
configured, and the `shutting_down_event` (presence and value). -/
structure BotState where
  app : Option AppState
  database : Bool
  support_bot : Option SupportState
  maintainerConfigured : Bool
  eventPresent : Bool
  eventSet : Bool
deriving DecidableEq

/-- Which awaited teardown actions fail, as an environment. -/
structure TeardownFaults where
  notifyMaintainerFails : Bool
  supportNotifyFails : Bool
  supportStopFails : Bool
  updaterStopFails : Bool
  appStopFails : Bool
  appShutdownFails : Bool
  dbCloseFails : Bool
deriving DecidableEq

/-- The observable actions of `TelegramBot.run` and
`TelegramBot.shutdown_gracefully`, in the order the source performs them. -/
inductive Step where
  | closeDbAppNone
  | closeDbRunFallback
  | setEvent
  | notifyMaintainer
  | notifySupport
  | stopSupport
  | stopUpdater
  | stopApp
  | shutdownApp
  | closeDb
deriving DecidableEq

/-- One awaited action that the environment may fail: it is attempted
(recorded in the trace) and reports its error in the second component. -/
def attempt (fails : Bool) (s : Step) : List Step × Option String :=
  ([s], if fails then some "step failed" else none)

/-- A `try/except` wrapper around one action: the failure is logged and
absorbed, never re-raised. -/
def absorb (r : List Step × Option String) : List Step × Option String :=
  (r.1, none)

/-- Sequencing of traced actions: a raised, un-absorbed error skips the
rest, as an uncaught Python exception would. -/
def seqSteps (r : List Step × Option String)
    (k : Unit → List Step × Option String) : List Step × Option String :=
  match r with
  | (tr, some e) => (tr, some e)
  | (tr, none) => let r2 := k (); (tr ++ r2.1, r2.2)

/-- The exception raised by evaluating `self.support_bot.is_running()` at
bot.py line 348: the repository's only `SupportBot` class
(src/support/bot.py) defines no `is_running` method and none is assigned
dynamically, so the attribute lookup raises whenever a support bot is
present. -/
def supportIsRunningAttributeError : String :=
  "AttributeError: SupportBot object has no attribute is_running"

/-- `TelegramBot.shutdown_gracefully` (bot.py lines 317-407).  Returns the
updated bot state, the trace of actions performed, and the exception
escaping the call.  Every awaited teardown action sits in its own
`try/except` (or the callee absorbs internally: `_notify_maintainer`,
`SupportBot.send_notification`), which the `absorb` wrappers mirror — but
the guard expression `self.support_bot and self.support_bot.is_running()`
at line 348 is outside any `try/except`, and `SupportBot` defines no
`is_running`, so with a support bot present it raises `AttributeError`,
which escapes the call and skips every remaining teardown step; the
guarded `support_bot.stop()` on line 351 is consequently unreachable.  The
guard flag is read (line 332) and set (line 336) with no suspension point
in between, so the check-and-set is a single atomic state update here,
exactly as the single cooperative scheduler makes it in the source. -/
def shutdown_gracefully (st : BotState) (f : TeardownFaults) :
    BotState × List Step × Option String :=
  match st.app with
  | none =>
    if st.database then ((st, [Step.closeDbAppNone], none) : BotState × List Step × Option String)
    else (st, [], none)
  | some a =>
    if a.is_shutting_down then (st, [], none)
    else
      let st1 : BotState := { st with app := some { a with is_shutting_down := true } }
      let st2 : BotState := if st.eventPresent then { st1 with eventSet := true } else st1
      let r :=
        seqSteps (if st.eventPresent then ([Step.setEvent], none) else ([], none)) fun _ =>
        seqSteps (if st.maintainerConfigured then absorb (attempt f.notifyMaintainerFails .notifyMaintainer) else ([], none)) fun _ =>
        seqSteps (if st.support_bot.isSome then absorb (attempt f.supportNotifyFails .notifySupport) else ([], none)) fun _ =>
        seqSteps (match st.support_bot with
          | some _ => (([], some supportIsRunningAttributeError) : List Step × Option String)
          | none => ([], none)) fun _ =>
        seqSteps (if a.updaterRunning then absorb (attempt f.updaterStopFails .stopUpdater) else ([], none)) fun _ =>
        seqSteps (if a.running then absorb (attempt f.appStopFails .stopApp) else ([], none)) fun _ =>
        seqSteps (if a.inited then absorb (attempt f.appShutdownFails .shutdownApp) else ([], none)) fun _ =>
        (if st.database then absorb (attempt f.dbCloseFails .closeDb) else ([], none))
      (st2, r.1, r.2)

/-- The fully-initialized bot state reached when `setup` and all start
steps of `run` succeeded: application built with the guard flag cleared
(line 97), updater polling, background tasks running, resource scope
entered, store present, event created and not yet set. -/
def runState (supportCfg maintCfg : Bool) : BotState :=
  { app := some ⟨false, true, true, true⟩
    database := true
    support_bot := if supportCfg then some ⟨true⟩ else none
    maintainerConfigured := maintCfg
    eventPresent := true
    eventSet := false }

/-- Outcome of `TelegramBot.setup` as `run` observes it: success, or an
exception together with how far initialization got (store constructed,
application constructed). -/
inductive SetupResult where
  | success
  | failure (dbInit : Bool) (appBuilt : Bool) (exc : String)
deriving DecidableEq

/-- Why the body of `run` stopped: the shutdown event was set, a
`KeyboardInterrupt` arrived, or an unexpected exception was raised. -/
inductive TermCause where
  | cancellationSignal
  | keyboardInterrupt
  | unexpectedError (e : String)
deriving DecidableEq

/-- Partially-initialized state when `setup` raised after constructing the
application (updater never started, scope never entered): store presence
per `dbInit`, support bot constructed but not started when configured. -/
def midSetupState (dbInit supportCfg maintCfg : Bool) : BotState :=
  { app := some ⟨false, false, false, false⟩
    database := dbInit
    support_bot := if supportCfg then some ⟨false⟩ else none
    maintainerConfigured := maintCfg
    eventPresent := true
    eventSet := false }

/-- `TelegramBot.run` (bot.py lines 111-174), observed as (exception
escaping `run`, trace of teardown actions).  The `try` body catches
`KeyboardInterrupt` and `Exception` and only logs them (lines 153-158); the
`finally` block (lines 159-174) calls `shutdown_gracefully` when the
application reference exists, and otherwise closes the database directly
inside its own `try/except`.  No caught exception is re-raised — but an
exception raised by `shutdown_gracefully` itself inside the `finally`
block (the `AttributeError` from the missing `is_running`) is not caught
there and propagates out of `run`, replacing any pending exception. -/
def run (s : SetupResult) (t : TermCause) (supportCfg maintCfg : Bool)
    (f : TeardownFaults) : Option String × List Step :=
  match s with
  | .failure dbInit appBuilt _ =>
    if appBuilt then
      let r := shutdown_gracefully (midSetupState dbInit supportCfg maintCfg) f
      (r.2.2, r.2.1)
    else if dbInit then (none, [Step.closeDbRunFallback])
    else (none, [])
  | .success =>
    match t with
    | .cancellationSignal =>
      let r := shutdown_gracefully (runState supportCfg maintCfg) f
      (r.2.2, r.2.1)
    | .keyboardInterrupt =>
      let r := shutdown_gracefully (runState supportCfg maintCfg) f
      (r.2.2, r.2.1)
    | .unexpectedError _ =>
      let r := shutdown_gracefully (runState supportCfg maintCfg) f
      (r.2.2, r.2.1)

/-- Bot state after `setup` raised before the application was constructed:
only the store may exist; `shutdown_gracefully` then takes its
application-is-None path (bot.py lines 319-330). -/
def noAppState (db : Bool) : BotState :=
  { app := none
    database := db
    support_bot := none
    maintainerConfigured := false
    eventPresent := false
    eventSet := false }

/-- A first `shutdown_gracefully` call on the fully-initialized state with
no support bot configured, for every fault environment: no exception, and
the full teardown sequence. -/
theorem shutdown_runState_noSupport (mc : Bool) (f : TeardownFaults) :
    (shutdown_gracefully (runState false mc) f).2 =
      ([Step.setEvent] ++ (if mc then [Step.notifyMaintainer] else []) ++
       [Step.stopUpdater, Step.stopApp, Step.shutdownApp, Step.closeDb], none) := by
  cases mc <;> rfl

/-- C1: `ensure_database_ready` realizes the section 4.1 policy table for
every combination of current revision, head revision and auto_migrate:
null head is ready with no migration; null current under non-null head
applies and returns the apply result when auto_migrate is set, else is not
ready without applying; current equal to head is ready with no migration;
differing revisions apply under auto_migrate, else are not ready. -/
theorem ensure_database_ready_matches_policy_table
    (current head : Option String) (auto applyOk : Bool) :
    ensure_database_ready current head auto applyOk =
      spec_policy_ensure_ready current head auto applyOk := by
  cases head with
  | none => cases current <;> rfl
  | some h =>
    cases current with
    | none => simp [ensure_database_ready, spec_policy_ensure_ready]
    | some c =>
      by_cases hc : c = h <;>
        simp [ensure_database_ready, spec_policy_ensure_ready, hc]

/-- C2 counterexample: with a non-null current revision and a null head,
`has_pending_migrations` returns false although current differs from head,
so pending is not equivalent to current-differs-from-head. -/
theorem has_pending_migrations_head_none_counterexample :
    has_pending_migrations (some "001") none = false ∧
    ((some "001" : Option String) != none) = true := ⟨rfl, rfl⟩

/-- C2 amended: `has_pending_migrations` returns true iff the head
revision is non-null and the current revision differs from it; in
particular null current with non-null head counts as pending, while a null
head yields false regardless of the current revision. -/
theorem has_pending_migrations_characterization (current head : Option String) :
    has_pending_migrations current head = (head.isSome && (current != head)) := by
  cases head <;> cases current <;> rfl

/-- C4: `get_migration_status` fills the head-revision field from the
synchronous `get_head_revision`, but the current-revision, pending-flag
and history fields receive unevaluated coroutine objects, because the
synchronous method calls the async methods without awaiting them — unlike
the spec-shaped record, whose fields hold computed values. -/
theorem get_migration_status_returns_coroutine_placeholders :
    (get_migration_status (some "001")).head_revision = PyVal.pStr "001" ∧
    (get_migration_status (some "001")).current_revision.isCoroutine = true ∧
    (get_migration_status (some "001")).has_pending_migrations.isCoroutine = true ∧
    (get_migration_status (some "001")).migration_history.isCoroutine = true ∧
    (spec_migration_status (some "001") (some "001") false []).current_revision.isCoroutine = false ∧
    (spec_migration_status (some "001") (some "001") false []).has_pending_migrations.isCoroutine = false :=
  ⟨rfl, rfl, rfl, rfl, rfl, rfl⟩

/-- C5: the double-call behavior of `shutdown_gracefully` on a
fully-initialized bot.  The second call always observes the guard flag set
by the first (checked and set with no suspension point in between) and
returns immediately with an empty trace and an unchanged state.  With no
support bot configured the first call performs each teardown step exactly
once (its trace has no repeated step).  But with a support bot configured
the first call aborts with `AttributeError` at the unguarded `is_running`
read, performing none of the teardown steps — teardown happens zero
times, not once. -/
theorem shutdown_gracefully_second_call_noop (mc : Bool)
    (f g : TeardownFaults) :
    ((shutdown_gracefully (shutdown_gracefully (runState false mc) f).1 g).2.1 = [] ∧
     (shutdown_gracefully (shutdown_gracefully (runState false mc) f).1 g).1 =
       (shutdown_gracefully (runState false mc) f).1 ∧
     (shutdown_gracefully (runState false mc) f).2.1.Nodup) ∧
    ((shutdown_gracefully (shutdown_gracefully (runState true mc) f).1 g).2.1 = [] ∧
     (shutdown_gracefully (runState true mc) f).2 =
       ([Step.setEvent] ++ (if mc then [Step.notifyMaintainer] else []) ++
        [Step.notifySupport], some supportIsRunningAttributeError)) := by
  cases mc <;>
    exact ⟨⟨rfl, rfl, by rw [shutdown_runState_noSupport]; decide⟩, rfl, rfl⟩

/-- C6: each listed teardown action does sit in its own `try/except`, so
for every subset of those actions that fail, `shutdown_gracefully` on a
fully-initialized support-less bot absorbs every failure — no exception
escapes — and still attempts every step.  But on a support-configured bot
the unguarded `is_running` read at bot.py line 348 raises
`AttributeError`, which escapes the call and skips every remaining step,
so shutdown does not always run to completion. -/
theorem shutdown_gracefully_absorbs_teardown_failures (f : TeardownFaults) :
    ((shutdown_gracefully (runState false true) f).2.2 = none ∧
     Step.notifyMaintainer ∈ (shutdown_gracefully (runState false true) f).2.1 ∧
     Step.stopUpdater ∈ (shutdown_gracefully (runState false true) f).2.1 ∧
     Step.stopApp ∈ (shutdown_gracefully (runState false true) f).2.1 ∧
     Step.shutdownApp ∈ (shutdown_gracefully (runState false true) f).2.1 ∧
     Step.closeDb ∈ (shutdown_gracefully (runState false true) f).2.1) ∧
    (shutdown_gracefully (runState true true) f).2 =
      ([Step.setEvent, Step.notifyMaintainer, Step.notifySupport],
       some supportIsRunningAttributeError) := by
  refine ⟨⟨rfl, ?_, ?_, ?_, ?_, ?_⟩, rfl⟩ <;>
    · rw [shutdown_runState_noSupport]
      decide

/-- C7: after a setup failure that initialized the store but never
constructed the front-end, `run`'s finally path closes the store directly
and raises nothing, and `shutdown_gracefully` on a null application
reference closes the store and returns without fault — only front-end
teardown is skipped. -/
theorem shutdown_tolerates_null_frontend (e : String) (t : TermCause)
    (sc mc : Bool) (f : TeardownFaults) :
    run (.failure true false e) t sc mc f = (none, [Step.closeDbRunFallback]) ∧
    shutdown_gracefully (noAppState true) f =
      (noAppState true, [Step.closeDbAppNone], none) := ⟨rfl, rfl⟩

/-- C8: with auto-migrate enabled, `DatabaseManager.setup` first delegates
to `ensure_database_ready`; whenever that reports not ready, setup raises
"Database migration failed" and the connection pool is never created. -/
theorem database_setup_aborts_on_migration_failure
    (current head : Option String) (applyOk poolOk : Bool)
    (h : (ensure_database_ready current head true applyOk).ready = false) :
    database_setup true current head applyOk poolOk =
      (some "Database migration failed", false) := by
  simp [database_setup, h]

/-- C8 witness: a fresh store (null current) with one script and a failed
apply makes `ensure_database_ready` report not ready, and setup aborts
with no pool. -/
theorem database_setup_aborts_witness :
    (ensure_database_ready none (some "001") true false).ready = false ∧
    database_setup true none (some "001") false true =
      (some "Database migration failed", false) :=
  ⟨rfl, database_setup_aborts_on_migration_failure none (some "001") false true rfl⟩

/-- C10: `SupportBot.send_notification` never raises: its result always
carries no exception, it returns false with zero send attempts when the
support application was never set up, and an internal send failure is
absorbed into a false return after the single attempt. -/
theorem send_notification_never_raises (app : Option Unit) (sendOk : Bool) :
    send_notification app sendOk =
      ⟨app.isSome && sendOk, if app.isSome then 1 else 0, none⟩ := by
  cases app <;> cases sendOk <;> rfl

/-- C9: on a fully-initialized support-less bot, every
`shutdown_gracefully` call, in every fault environment, performs exactly
the sequence: cancellation event set, stopping notification, updater
(polling) stop, application background-task stop, application
resource-scope shutdown, store close last — strictly sequential, never
interleaved.  On a fully-initialized bot with the secondary channel
configured, the claimed complete sequence never occurs: the call aborts
with `AttributeError` right after the support notification and before any
teardown step. -/
theorem shutdown_gracefully_reverse_order (f : TeardownFaults) :
    (shutdown_gracefully (runState false true) f).2.1 =
      [Step.setEvent, Step.notifyMaintainer, Step.stopUpdater,
       Step.stopApp, Step.shutdownApp, Step.closeDb] ∧
    (shutdown_gracefully (runState true true) f).2 =
      ([Step.setEvent, Step.notifyMaintainer, Step.notifySupport],
       some supportIsRunningAttributeError) := ⟨rfl, rfl⟩

end TgBot
